import Mathlib

/-!
Verification of the device-activity-tracker server and dashboard.

The embedding follows the two TypeScript sources:
* `src/src/server.ts` — the Socket.IO control surface: the `add-contact`,
  `remove-contact` and `set-probe-method` handlers, the global probe method
  and the `trackers` map (JID → Tracker instance).
* `src/unnamed/part_000` — the React `Dashboard` component: the
  `tracker-update`, `profile-pic`, `contact-name`, `contact-added` and
  `contact-removed` socket handlers over the `contacts` map.

The `WhatsAppTracker` class itself (`./tracker`) is not part of the sources;
where its behaviour is needed it is modelled from the specification and the
definition says so in its doc comment.

JavaScript `Map`s are embedded as association lists with the `Map` access
semantics (`mapGet`, `mapHas`, `mapSet`, `mapDelete`); numeric payload values
flow through the handlers untouched, so they are embedded as `Int`/`Nat`.
-/

namespace DAT

/-- `number.replace(/\D/g, '')` from `server.ts`: keep only digit characters. -/
def cleanDigits (s : String) : String :=
  String.mk (s.data.filter Char.isDigit)

/-- `cleanNumber + '@s.whatsapp.net'` from `server.ts` (`add-contact`). -/
def targetJidOf (number : String) : String :=
  cleanDigits number ++ "@s.whatsapp.net"

/-- Whether `pat` occurs at the start of `l` (character-by-character). -/
def listLeads : List Char → List Char → Bool
  | [], _ => true
  | _ :: _, [] => false
  | a :: as, b :: bs => a == b && listLeads as bs

/-- Whether `pat` occurs somewhere inside `l` as a contiguous run. -/
def listHasSub (pat : List Char) : List Char → Bool
  | [] => pat.isEmpty
  | c :: t => listLeads pat (c :: t) || listHasSub pat t

/-- JavaScript `s.includes(pat)`: substring containment test. -/
def strIncludes (s pat : String) : Bool :=
  listHasSub pat.data s.data

/-! ### JavaScript `Map` as an association list -/

/-- `Map.get`: value of the first binding of `k`, if any. -/
def mapGet {α : Type} : List (String × α) → String → Option α
  | [], _ => none
  | p :: rest, k => if p.1 = k then some p.2 else mapGet rest k

/-- `Map.has`. -/
def mapHas {α : Type} (m : List (String × α)) (k : String) : Bool :=
  (mapGet m k).isSome

/-- `Map.set`: overwrite in place if `k` is bound, otherwise append. -/
def mapSet {α : Type} : List (String × α) → String → α → List (String × α)
  | [], k, v => [(k, v)]
  | p :: rest, k, v => if p.1 = k then (k, v) :: rest else p :: mapSet rest k v

/-- `Map.delete`. -/
def mapDelete {α : Type} : List (String × α) → String → List (String × α)
  | [], _ => []
  | p :: rest, k => if p.1 = k then mapDelete rest k else p :: mapDelete rest k

/-! ### Device state classifier (modelled from the spec) -/

/-- The three-valued categorical device state of spec §4.4. -/
inductive DeviceState where
  | online
  | offline
  | unknown
deriving DecidableEq

/-- `DeviceState.online` membership test, used by the aggregate rule. -/
def DeviceState.isOnline : DeviceState → Bool
  | .online => true
  | _ => false

/-- Modelled from the spec: the Device State Classifier of `tracker.ts`
(not under `src/`), §4.4: no sample within the round deadline → `Unknown`;
sample with RTT ≤ threshold → `Online`; sample with RTT > threshold →
`Offline`. RTT in milliseconds as `Nat`. -/
def classifyDevice (sample : Option Nat) (threshold : Nat) : DeviceState :=
  match sample with
  | none => .unknown
  | some rtt => if rtt ≤ threshold then .online else .offline

/-- Modelled from the spec: the contact-level aggregate (headline) state of
`tracker.ts` (not under `src/`), §4.4: `Online` if any device is `Online`,
else `Offline` if any device reported this round, else `Unknown`. -/
def aggregateState (samples : List (Option Nat)) (threshold : Nat) : DeviceState :=
  if (samples.map (fun s => classifyDevice s threshold)).any DeviceState.isOnline then
    .online
  else if samples.any Option.isSome then
    .offline
  else
    .unknown

/-- A round snapshot as far as the control-surface claims need it: per-device
states, the aggregate state, the device count and the threshold in force. -/
structure Snapshot where
  states : List DeviceState
  aggregate : DeviceState
  deviceCount : Nat
  threshold : Nat
deriving DecidableEq

/-- Snapshot assembled from one round's per-device samples. -/
def mkSnapshot (samples : List (Option Nat)) (threshold : Nat) : Snapshot :=
  { states := samples.map (fun s => classifyDevice s threshold)
    aggregate := aggregateState samples threshold
    deviceCount := (samples.filter Option.isSome).length
    threshold := threshold }

/-! ### Tracker instances and the server state -/

/-- Lifecycle states of a Tracker, spec §4.2: `Idle → Tracking → Stopped`. -/
inductive TrackerStatus where
  | idle
  | tracking
  | stopped
deriving DecidableEq

/-- One `WhatsAppTracker` instance as the server handlers see it.  `id` is a
creation sequence number distinguishing instances; `contactJid` is the JID the
instance was constructed with (`result.jid` in `server.ts`). -/
structure Tracker where
  id : Nat
  contactJid : String
  status : TrackerStatus
  probeMethod : String
deriving DecidableEq

/-- Modelled from the spec: `WhatsAppTracker.setProbeMethod` of `tracker.ts`
(not under `src/`), §4.2: a pure assignment of the active strategy. -/
def Tracker.setProbe (t : Tracker) (m : String) : Tracker :=
  { t with probeMethod := m }

/-- Modelled from the spec: `WhatsAppTracker.stopTracking` of `tracker.ts`
(not under `src/`), §4.2: transition to the terminal `Stopped` state,
cancelling the loop. -/
def Tracker.stopTracking (t : Tracker) : Tracker :=
  { t with status := .stopped }

/-- Modelled from the spec: completion of a probe round by `tracker.ts`
(not under `src/`), §4.2 step 5 and §5: while `Tracking`, the round's
snapshot is emitted exactly once via `onUpdate`; after `stopTracking` all
further results are discarded — a receipt arriving after the transition is
dropped, never delivered to a consumer. -/
def Tracker.completeRound (t : Tracker) (samples : List (Option Nat))
    (threshold : Nat) : Tracker × List (String × Snapshot) :=
  match t.status with
  | .tracking => (t, [(t.contactJid, mkSnapshot samples threshold)])
  | _ => (t, [])

/-- The mutable server state of `server.ts`: the global probe method, every
Tracker instance ever constructed (in construction order — the JS objects
outlive their registry entry), and the `trackers` map from JID to the id of
the registered instance. -/
structure ServerState where
  globalProbeMethod : String
  nextId : Nat
  instances : List Tracker
  registry : List (String × Nat)
deriving DecidableEq

/-- Whether some registry binding points at the instance id `tid`
(`trackers.values()` reaches exactly these instances). -/
def registeredIn (reg : List (String × Nat)) (tid : Nat) : Bool :=
  reg.any (fun p => decide (p.2 = tid))

/-! ### Emitted events -/

/-- The socket events the three handlers emit. -/
inductive Event where
  | errorEv (jid : Option String) (message : String)
  | contactAdded (jid : String) (number : String)
  | contactRemoved (jid : String)
  | profilePic (jid : String) (url : Option String)
  | contactName (jid : String) (name : String)
  | probeMethodEv (method : String)
deriving DecidableEq

/-- `socket.emit` goes to the requester only; `io.emit` to all clients. -/
inductive EmitTarget where
  | requester
  | allClients
deriving DecidableEq

/-- One emission: the event plus who receives it. -/
structure Emission where
  target : EmitTarget
  event : Event
deriving DecidableEq

/-- Whether an emission is an `error` event. -/
def isErrorEmission (e : Emission) : Bool :=
  match e.event with
  | .errorEv _ _ => true
  | _ => false

/-! ### The three socket handlers of `server.ts` -/

/-- One element of the `onWhatsApp` result list: the `exists` flag and the
canonical `jid` the platform reports for the number. -/
structure VerifResult where
  exist : Bool
  jid : String
deriving DecidableEq

/-- Outcome of `await sock.onWhatsApp(targetJid)`: either the resolved result
list or a thrown error (the `catch` branch). -/
inductive VerifOutcome where
  | ok (results : List VerifResult)
  | err
deriving DecidableEq

/-- The `add-contact` handler, `server.ts` lines 94–145.  Besides the number,
the asynchronous collaborators are passed as parameters: `verif` is the
outcome of `sock.onWhatsApp(targetJid)`, `ppUrl` the profile-picture URL
(`fetchProfilePicture` returns a url or none per spec §6), and `fetchedName`
the `notify` name resolved by the second `onWhatsApp` call (`none` meaning
the fallback to the clean number, covering its own `catch`). -/
def addContact (st : ServerState) (number : String) (verif : VerifOutcome)
    (ppUrl : Option String) (fetchedName : Option String) :
    ServerState × List Emission :=
  let targetJid := targetJidOf number
  if mapHas st.registry targetJid then
    (st, [⟨.requester, .errorEv (some targetJid) "Already tracking this contact"⟩])
  else
    match verif with
    | .err => (st, [⟨.requester, .errorEv (some targetJid) "Verification failed"⟩])
    | .ok results =>
      match results.head? with
      | some result =>
        if result.exist then
          let tracker : Tracker :=
            { id := st.nextId, contactJid := result.jid,
              status := .tracking, probeMethod := st.globalProbeMethod }
          let cleanNumber := cleanDigits number
          let contactName := fetchedName.getD cleanNumber
          ({ st with
              nextId := st.nextId + 1,
              instances := st.instances ++ [tracker],
              registry := mapSet st.registry result.jid st.nextId },
           [⟨.requester, .contactAdded result.jid cleanNumber⟩,
            ⟨.allClients, .profilePic result.jid ppUrl⟩,
            ⟨.allClients, .contactName result.jid contactName⟩])
        else
          (st, [⟨.requester, .errorEv (some targetJid) "Number not on WhatsApp"⟩])
      | none =>
        (st, [⟨.requester, .errorEv (some targetJid) "Number not on WhatsApp"⟩])

/-- The `remove-contact` handler, `server.ts` lines 147–155: if the jid is
registered, stop that instance, drop the registry binding and emit
`contact-removed` to the requester; otherwise do nothing. -/
def removeContact (st : ServerState) (jid : String) : ServerState × List Emission :=
  match mapGet st.registry jid with
  | some tid =>
    ({ st with
        instances := st.instances.map (fun t =>
          if t.id = tid then t.stopTracking else t),
        registry := mapDelete st.registry jid },
     [⟨.requester, .contactRemoved jid⟩])
  | none => (st, [])

/-- The `set-probe-method` handler, `server.ts` lines 157–172: reject
anything outside `{delete, reaction}` with an error and no state change;
otherwise assign the global method, apply it to every registered Tracker
(`trackers.values()`), and broadcast the new method to all clients. -/
def setProbeMethodHandler (st : ServerState) (method : String) :
    ServerState × List Emission :=
  if method ≠ "delete" ∧ method ≠ "reaction" then
    (st, [⟨.requester, .errorEv none "Invalid probe method"⟩])
  else
    ({ st with
        globalProbeMethod := method,
        instances := st.instances.map (fun t =>
          if registeredIn st.registry t.id then t.setProbe method else t) },
     [⟨.allClients, .probeMethodEv method⟩])

/-! ### The Dashboard consumer (`src/unnamed/part_000`) -/

/-- One chart data point (`TrackerData` in the Dashboard). -/
structure TrackerData where
  rtt : Int
  avg : Int
  median : Int
  threshold : Int
  state : String
  timestamp : Nat
deriving DecidableEq

/-- Per-device display info (`DeviceInfo` in the Dashboard); `state` is a
plain string exactly as in the source. -/
structure DeviceInfo where
  jid : String
  state : String
  rtt : Int
  avg : Int
deriving DecidableEq

/-- One entry of the Dashboard's `contacts` map (`ContactInfo`). -/
structure ContactInfo where
  jid : String
  displayNumber : String
  contactName : String
  data : List TrackerData
  devices : List DeviceInfo
  deviceCount : Nat
  presence : Option String
  profilePic : Option String
deriving DecidableEq

/-- The payload of a `tracker-update` event as the Dashboard destructures it:
a `jid` (absent or empty counts as falsy) and the optional fields it reads. -/
structure TrackerUpdateMsg where
  jid : Option String
  presence : Option (Option String)
  deviceCount : Option Nat
  devices : Option (List DeviceInfo)
  median : Option Int
  threshold : Int
deriving DecidableEq

/-- `data.devices.find(d => d.state.includes('Online'))?.state ||
data.devices[0].state` from `onTrackerUpdate` (part_000 line 72): the state
string of the first device whose state contains `"Online"` as a substring,
falling back to the first device's state.  (A matching state contains
`"Online"` and is therefore non-empty, so the JS `||` fallback fires exactly
when `find` returns `undefined`.) -/
def chartState (devices : List DeviceInfo) (first : DeviceInfo) : String :=
  match devices.find? (fun d => strIncludes d.state "Online") with
  | some d => d.state
  | none => first.state

/-- `onTrackerUpdate` (part_000 lines 43–83): ignore a falsy jid; if the jid
has no contact entry return the map unchanged; otherwise fold in the present
fields and, when `median` is present and `devices` is non-empty, append a
chart point whose `state` is chosen by `chartState`.  `now` is `Date.now()`. -/
def applyTrackerUpdate (contacts : List (String × ContactInfo))
    (u : TrackerUpdateMsg) (now : Nat) : List (String × ContactInfo) :=
  match u.jid with
  | none => contacts
  | some jid =>
    if jid = "" then contacts
    else
      match mapGet contacts jid with
      | none => contacts
      | some contact =>
        let c1 := match u.presence with
          | some p => { contact with presence := p }
          | none => contact
        let c2 := match u.deviceCount with
          | some n => { c1 with deviceCount := n }
          | none => c1
        let c3 := match u.devices with
          | some ds => { c2 with devices := ds }
          | none => c2
        let c4 := match u.median, u.devices with
          | some m, some (d0 :: ds) =>
            let point : TrackerData :=
              { rtt := d0.rtt, avg := d0.avg, median := m,
                threshold := u.threshold,
                state := chartState (d0 :: ds) d0, timestamp := now }
            { c3 with data := c3.data ++ [point] }
          | _, _ => c3
        mapSet contacts jid c4

/-- `onProfilePic` (part_000 lines 85–94): update only an existing entry. -/
def applyProfilePic (contacts : List (String × ContactInfo)) (jid : String)
    (url : Option String) : List (String × ContactInfo) :=
  match mapGet contacts jid with
  | some c => mapSet contacts jid { c with profilePic := url }
  | none => contacts

/-- `onContactName` (part_000 lines 96–105): update only an existing entry. -/
def applyContactName (contacts : List (String × ContactInfo)) (jid : String)
    (name : String) : List (String × ContactInfo) :=
  match mapGet contacts jid with
  | some c => mapSet contacts jid { c with contactName := name }
  | none => contacts

/-- `onContactAdded` (part_000 lines 107–123): install a fresh entry. -/
def applyContactAdded (contacts : List (String × ContactInfo))
    (jid number : String) : List (String × ContactInfo) :=
  mapSet contacts jid
    { jid := jid, displayNumber := number, contactName := number,
      data := [], devices := [], deviceCount := 0,
      presence := none, profilePic := none }

/-- `onContactRemoved` (part_000 lines 125–131): drop the entry. -/
def applyContactRemoved (contacts : List (String × ContactInfo))
    (jid : String) : List (String × ContactInfo) :=
  mapDelete contacts jid

/-! ### Lemmas about the map embedding -/

theorem mapGet_mapDelete_self {α : Type} (m : List (String × α)) (k : String) :
    mapGet (mapDelete m k) k = none := by
  induction m with
  | nil => rfl
  | cons p rest ih =>
    by_cases h : p.1 = k
    · simp [mapDelete, h, ih]
    · simp [mapDelete, mapGet, h, ih]

theorem mapGet_mapSet_self {α : Type} (m : List (String × α)) (k : String) (v : α) :
    mapGet (mapSet m k v) k = some v := by
  induction m with
  | nil => simp [mapSet, mapGet]
  | cons p rest ih =>
    by_cases h : p.1 = k
    · simp [mapSet, h, mapGet]
    · simp [mapSet, mapGet, h, ih]

theorem mapHas_mapSet_of_has {α : Type} (m : List (String × α)) (k kp : String)
    (v : α) (h : mapHas m k = true) :
    mapHas (mapSet m k v) kp = mapHas m kp := by
  induction m with
  | nil => simp [mapHas, mapGet] at h
  | cons p rest ih =>
    by_cases hp : p.1 = k
    · subst hp
      by_cases hq : p.1 = kp <;> simp [mapSet, mapHas, mapGet, hq]
    · have hrest : mapHas rest k = true := by
        simpa [mapHas, mapGet, hp] using h
      by_cases hq : p.1 = kp
      · have hk : ¬kp = k := fun he => hp (hq.trans he)
        simp [mapSet, hp, hk, mapHas, mapGet, hq]
      · simp only [mapSet, if_neg hp, mapHas, mapGet, if_neg hq]
        simpa [mapHas] using ih hrest

theorem mapGet_eq_none_of_not_has {α : Type} (m : List (String × α)) (k : String)
    (h : mapHas m k = false) : mapGet m k = none := by
  cases hg : mapGet m k with
  | none => rfl
  | some v => rw [mapHas, hg] at h; simp at h

/-! ### Claim theorems -/

/-- C8: `stopTracking` is idempotent: after a `remove-contact` request for a
jid, a second `remove-contact` for the same jid is a no-op — the state is
unchanged and nothing (in particular no duplicate `contact-removed` and no
error) is emitted; and stopping an already-stopped Tracker instance leaves
it unchanged. -/
theorem remove_contact_idempotent :
    (∀ (st : ServerState) (jid : String),
      removeContact (removeContact st jid).1 jid = ((removeContact st jid).1, []))
    ∧ ∀ t : Tracker, t.stopTracking.stopTracking = t.stopTracking := by
  constructor
  · intro st jid
    cases h : mapGet st.registry jid with
    | none => simp [removeContact, h]
    | some tid => simp [removeContact, h, mapGet_mapDelete_self]
  · intro t
    rfl

/-- C9: a `remove-contact` request whose jid is not in the tracker registry
leaves the server state unchanged and emits nothing — no error event and no
`contact-removed` event. -/
theorem remove_contact_unknown_jid (st : ServerState) (jid : String)
    (h : mapHas st.registry jid = false) : removeContact st jid = (st, []) := by
  have hg := mapGet_eq_none_of_not_has st.registry jid h
  simp [removeContact, hg]

/-- Witness for C9: a concrete state with an empty registry. -/
theorem remove_contact_unknown_jid_witness :
    mapHas (ServerState.mk "delete" 0 [] []).registry "49123@s.whatsapp.net" = false
    ∧ removeContact (ServerState.mk "delete" 0 [] []) "49123@s.whatsapp.net" =
        (ServerState.mk "delete" 0 [] [], []) :=
  ⟨by decide, remove_contact_unknown_jid _ _ (by decide)⟩

/-- C3: a `set-probe-method` request whose method is outside
`{delete, reaction}` is rejected with an error emission to the requester and
the state — the global probe method and every Tracker's method — is
unchanged. -/
theorem set_probe_method_invalid (st : ServerState) (m : String)
    (h1 : m ≠ "delete") (h2 : m ≠ "reaction") :
    setProbeMethodHandler st m =
      (st, [⟨.requester, .errorEv none "Invalid probe method"⟩]) := by
  simp [setProbeMethodHandler, h1, h2]

/-- Witness for C3: the concrete method `"burst"` is rejected. -/
theorem set_probe_method_invalid_witness :
    setProbeMethodHandler (ServerState.mk "delete" 0 [] []) "burst" =
      (ServerState.mk "delete" 0 [] [],
       [⟨.requester, .errorEv none "Invalid probe method"⟩]) :=
  set_probe_method_invalid _ _ (by decide) (by decide)

/-- C4: a `set-probe-method` request with method in `{delete, reaction}` sets
the global probe method, broadcasts the method to all clients, keeps the
registry unchanged, and applies the method to every Tracker instance reached
by the registry (`trackers.values()`). -/
theorem set_probe_method_valid (st : ServerState) (m : String)
    (h : m = "delete" ∨ m = "reaction") :
    (setProbeMethodHandler st m).1.globalProbeMethod = m
    ∧ (setProbeMethodHandler st m).2 = [⟨.allClients, .probeMethodEv m⟩]
    ∧ (setProbeMethodHandler st m).1.registry = st.registry
    ∧ ∀ t ∈ (setProbeMethodHandler st m).1.instances,
        registeredIn st.registry t.id = true → t.probeMethod = m := by
  have hc : ¬(m ≠ "delete" ∧ m ≠ "reaction") := by
    rcases h with h | h <;> simp [h]
  refine ⟨?_, ?_, ?_, ?_⟩
  · simp only [setProbeMethodHandler, if_neg hc]
  · simp only [setProbeMethodHandler, if_neg hc]
  · simp only [setProbeMethodHandler, if_neg hc]
  · simp only [setProbeMethodHandler, if_neg hc]
    intro t ht hreg
    simp only [List.mem_map] at ht
    obtain ⟨t0, ht0, rfl⟩ := ht
    by_cases hr : registeredIn st.registry t0.id = true
    · simp [hr, Tracker.setProbe]
    · rw [if_neg hr] at hreg ⊢
      exact absurd hreg hr

/-- Tracked state for the C4 witness: instance 1 is registered for the jid,
instance 0 is an instance no registry binding reaches. -/
def stW4 : ServerState :=
  { globalProbeMethod := "delete", nextId := 2,
    instances := [Tracker.mk 0 "49a@s.whatsapp.net" .tracking "delete",
                  Tracker.mk 1 "49a@s.whatsapp.net" .tracking "delete"],
    registry := [("49a@s.whatsapp.net", 1)] }

/-- Witness for C4: switching to `"reaction"` updates the global method and
the registered instance. -/
theorem set_probe_method_valid_witness :
    ("reaction" = "delete" ∨ ("reaction" : String) = "reaction")
    ∧ (setProbeMethodHandler stW4 "reaction").1.globalProbeMethod = "reaction"
    ∧ (Tracker.mk 1 "49a@s.whatsapp.net" .tracking "reaction").probeMethod = "reaction" :=
  ⟨Or.inr rfl,
   (set_probe_method_valid stW4 "reaction" (Or.inr rfl)).1,
   (set_probe_method_valid stW4 "reaction" (Or.inr rfl)).2.2.2
     (Tracker.mk 1 "49a@s.whatsapp.net" .tracking "reaction")
     (by decide) (by decide)⟩

/-- C5: the `add-contact` handler creates and starts a Tracker only after the
`onWhatsApp` verification confirms the number is reachable: if verification
throws, or reports no result or a non-existent number, the state (in
particular the registry) is unchanged and exactly one error is emitted, to
the requester; and conversely any state change implies verification returned
a first result with `exists = true`. -/
theorem add_contact_verification_gate :
    (∀ (st : ServerState) (n : String) (pp nm : Option String),
      (addContact st n .err pp nm).1 = st
      ∧ ∃ j msg, (addContact st n .err pp nm).2 = [⟨.requester, .errorEv j msg⟩])
    ∧ (∀ (st : ServerState) (n : String) (rs : List VerifResult)
        (pp nm : Option String),
        (∀ r, rs.head? = some r → r.exist = false) →
        (addContact st n (.ok rs) pp nm).1 = st
        ∧ ∃ j msg, (addContact st n (.ok rs) pp nm).2 =
            [⟨.requester, .errorEv j msg⟩])
    ∧ ∀ (st : ServerState) (n : String) (v : VerifOutcome) (pp nm : Option String),
        (addContact st n v pp nm).1 ≠ st →
        ∃ rs r, v = .ok rs ∧ rs.head? = some r ∧ r.exist = true := by
  refine ⟨?_, ?_, ?_⟩
  · intro st n pp nm
    by_cases h : mapHas st.registry (targetJidOf n) = true
    · exact ⟨by simp [addContact, h], some (targetJidOf n),
        "Already tracking this contact", by simp [addContact, h]⟩
    · exact ⟨by simp [addContact, h], some (targetJidOf n),
        "Verification failed", by simp [addContact, h]⟩
  · intro st n rs pp nm hne
    by_cases h : mapHas st.registry (targetJidOf n) = true
    · exact ⟨by simp [addContact, h], some (targetJidOf n),
        "Already tracking this contact", by simp [addContact, h]⟩
    · cases hr : rs.head? with
      | none =>
        exact ⟨by simp [addContact, h, hr], some (targetJidOf n),
          "Number not on WhatsApp", by simp [addContact, h, hr]⟩
      | some r =>
        have hf : r.exist = false := hne r hr
        exact ⟨by simp [addContact, h, hr, hf], some (targetJidOf n),
          "Number not on WhatsApp", by simp [addContact, h, hr, hf]⟩
  · intro st n v pp nm hst
    by_cases h : mapHas st.registry (targetJidOf n) = true
    · simp [addContact, h] at hst
    · cases v with
      | err => simp [addContact, h] at hst
      | ok rs =>
        cases hr : rs.head? with
        | none => simp [addContact, h, hr] at hst
        | some r =>
          by_cases he : r.exist = true
          · exact ⟨rs, r, rfl, hr, he⟩
          · simp [addContact, h, hr, he] at hst

/-- Witness for C5: an unreachable number produces one error and no state
change. -/
theorem add_contact_verification_gate_witness :
    (addContact (ServerState.mk "delete" 0 [] []) "123"
        (.ok [VerifResult.mk false "123@s.whatsapp.net"]) none none).1 =
      ServerState.mk "delete" 0 [] []
    ∧ ∃ j msg, (addContact (ServerState.mk "delete" 0 [] []) "123"
        (.ok [VerifResult.mk false "123@s.whatsapp.net"]) none none).2 =
          [⟨.requester, .errorEv j msg⟩] :=
  add_contact_verification_gate.2.1 (ServerState.mk "delete" 0 [] []) "123"
    [VerifResult.mk false "123@s.whatsapp.net"] none none
    (by
      intro r hr
      simp only [List.head?_cons, Option.some.injEq] at hr
      subst hr
      rfl)

/-- C1 (amended): the `add-contact` duplicate check is performed against the
jid constructed from the cleaned number (`cleanNumber + '@s.whatsapp.net'`):
when that constructed jid is a registry key, the request is rejected with
the `'Already tracking this contact'` error and no second Tracker is
created.  (The Tracker is, however, stored under the verification-returned
`result.jid`, which can differ from the constructed jid — see the
counterexample.) -/
theorem add_contact_duplicate_check (st : ServerState) (number : String)
    (v : VerifOutcome) (pp nm : Option String)
    (h : mapHas st.registry (targetJidOf number) = true) :
    addContact st number v pp nm =
      (st, [⟨.requester, .errorEv (some (targetJidOf number))
              "Already tracking this contact"⟩]) := by
  simp [addContact, h]

/-- State for the C1 amended-claim witness: the constructed jid of `"123"`
is already registered. -/
def stW1 : ServerState :=
  { globalProbeMethod := "delete", nextId := 1,
    instances := [Tracker.mk 0 "123@s.whatsapp.net" .tracking "delete"],
    registry := [("123@s.whatsapp.net", 0)] }

/-- Witness for the amended C1: a duplicate add for `"123"` is rejected. -/
theorem add_contact_duplicate_check_witness :
    mapHas stW1.registry (targetJidOf "123") = true
    ∧ addContact stW1 "123" (.ok [VerifResult.mk true "123@s.whatsapp.net"])
        none none =
      (stW1, [⟨.requester, .errorEv (some (targetJidOf "123"))
                "Already tracking this contact"⟩]) :=
  ⟨by decide,
   add_contact_duplicate_check stW1 "123"
     (.ok [VerifResult.mk true "123@s.whatsapp.net"]) none none (by decide)⟩

/-- Verification outcome in which the platform canonicalises the number
`"123"` to the jid `"9123@s.whatsapp.net"` (the reachable account). -/
def verOk9 : VerifOutcome := .ok [VerifResult.mk true "9123@s.whatsapp.net"]

/-- Server state after a first `add-contact "123"` under `verOk9`. -/
def stAfterFirstAdd : ServerState :=
  (addContact (ServerState.mk "delete" 0 [] []) "123" verOk9 none none).1

/-- C1 counterexample: the duplicate check keys on the constructed
`"123@s.whatsapp.net"` while the Tracker was stored under the
verification-returned `"9123@s.whatsapp.net"`, so a second `add-contact` for
the very same number passes the check: afterwards two Tracker instances for
the tracked contact `"9123@s.whatsapp.net"` are simultaneously in the
`Tracking` state, the contact was already present in the registry before the
second request, and the second request emitted no error at all. -/
theorem tracker_uniqueness_cex :
    ((addContact stAfterFirstAdd "123" verOk9 none none).1.instances.filter
        (fun t => decide (t.contactJid = "9123@s.whatsapp.net"
          ∧ t.status = .tracking))).length = 2
    ∧ mapHas stAfterFirstAdd.registry "9123@s.whatsapp.net" = true
    ∧ ((addContact stAfterFirstAdd "123" verOk9 none none).2.any
        isErrorEmission) = false := by
  decide

/-- C7: the device state classifier maps a missing round sample to `Unknown`,
a sample with RTT ≤ threshold to `Online` and a sample with RTT > threshold
to `Offline`; the contact-level aggregate is `Online` exactly when some
device classifies `Online`, `Offline` when none does but some device
reported, and `Unknown` when no device reported — including the spec's
concrete scenario (120 ms and 900 ms against a 400 ms threshold). -/
theorem device_state_classifier (t rtt : Nat) (samples : List (Option Nat)) :
    classifyDevice none t = DeviceState.unknown
    ∧ (rtt ≤ t → classifyDevice (some rtt) t = DeviceState.online)
    ∧ (t < rtt → classifyDevice (some rtt) t = DeviceState.offline)
    ∧ (aggregateState samples t = DeviceState.online ↔
        (samples.map (fun s => classifyDevice s t)).any DeviceState.isOnline = true)
    ∧ ((samples.map (fun s => classifyDevice s t)).any DeviceState.isOnline = false →
        samples.any Option.isSome = true →
        aggregateState samples t = DeviceState.offline)
    ∧ (samples.any Option.isSome = false →
        aggregateState samples t = DeviceState.unknown)
    ∧ classifyDevice (some 120) 400 = DeviceState.online
    ∧ classifyDevice (some 900) 400 = DeviceState.offline
    ∧ aggregateState [some 120, some 900] 400 = DeviceState.online := by
  refine ⟨rfl, ?_, ?_, ?_, ?_, ?_, by decide, by decide, by decide⟩
  · intro h
    simp [classifyDevice, h]
  · intro h
    simp [classifyDevice, Nat.not_le.mpr h]
  · constructor
    · intro h
      by_contra ha
      rw [Bool.not_eq_true] at ha
      simp only [aggregateState, ha, Bool.false_eq_true, if_false] at h
      by_cases hb : samples.any Option.isSome = true <;> simp [hb] at h
    · intro ha
      simp [aggregateState, ha]
  · intro ha hb
    simp [aggregateState, ha, hb]
  · intro hs
    have ha : (samples.map (fun s => classifyDevice s t)).any
        DeviceState.isOnline = false := by
      rw [List.any_eq_false] at hs ⊢
      intro x hx
      rw [List.mem_map] at hx
      obtain ⟨s, hs2, rfl⟩ := hx
      cases s with
      | none => simp [classifyDevice, DeviceState.isOnline]
      | some v => exact absurd (by simp) (hs (some v) hs2)
    simp [aggregateState, ha, hs]

/-- Witness for C7: concrete classifications on both sides of the
threshold, and the empty round aggregating to `Unknown`. -/
theorem device_state_classifier_witness :
    (100 ≤ 400 ∧ classifyDevice (some 100) 400 = DeviceState.online)
    ∧ (400 < 900 ∧ classifyDevice (some 900) 400 = DeviceState.offline)
    ∧ ([] : List (Option Nat)).any Option.isSome = false
    ∧ aggregateState [] 400 = DeviceState.unknown :=
  ⟨⟨by decide, (device_state_classifier 400 100 []).2.1 (by decide)⟩,
   ⟨by decide, (device_state_classifier 400 900 []).2.2.1 (by decide)⟩,
   by decide,
   (device_state_classifier 400 0 []).2.2.2.2.2.1 (by decide)⟩

/-- C6: after `stopTracking`, a Tracker emits no further snapshot even when
a receipt completes a round that was in flight at the stop — the stopped
instance's `completeRound` yields no emission for its jid — and the
`remove-contact` handler does put the registered instance into the
`Stopped` state. -/
theorem stop_tracking_drops_late_receipts :
    (∀ (t : Tracker) (samples : List (Option Nat)) (threshold : Nat),
      (t.stopTracking.completeRound samples threshold).2 = []
      ∧ t.stopTracking.status = TrackerStatus.stopped)
    ∧ ∀ (st : ServerState) (jid : String) (tid : Nat),
        mapGet st.registry jid = some tid →
        ∀ u ∈ (removeContact st jid).1.instances,
          u.id = tid → u.status = TrackerStatus.stopped := by
  constructor
  · intro t samples threshold
    exact ⟨rfl, rfl⟩
  · intro st jid tid hget u hu hid
    simp only [removeContact, hget] at hu
    simp only [List.mem_map] at hu
    obtain ⟨t0, ht0, rfl⟩ := hu
    by_cases h0 : t0.id = tid
    · simp [h0, Tracker.stopTracking]
    · rw [if_neg h0] at hid
      exact absurd hid h0

/-- Server state with one tracked contact, for the C6 witness. -/
def stW6 : ServerState :=
  { globalProbeMethod := "delete", nextId := 1,
    instances := [Tracker.mk 0 "49b@s.whatsapp.net" .tracking "delete"],
    registry := [("49b@s.whatsapp.net", 0)] }

/-- Witness for C6: a late receipt against the concrete stopped instance
emits nothing, and `remove-contact` left the instance stopped. -/
theorem stop_tracking_drops_late_receipts_witness :
    ((Tracker.mk 0 "49b@s.whatsapp.net" TrackerStatus.tracking
        "delete").stopTracking.completeRound [some 5] 3).2 = []
    ∧ mapGet stW6.registry "49b@s.whatsapp.net" = some 0
    ∧ (Tracker.mk 0 "49b@s.whatsapp.net" TrackerStatus.stopped "delete").status =
        TrackerStatus.stopped :=
  ⟨(stop_tracking_drops_late_receipts.1
      (Tracker.mk 0 "49b@s.whatsapp.net" TrackerStatus.tracking "delete")
      [some 5] 3).1,
   by decide,
   stop_tracking_drops_late_receipts.2 stW6 "49b@s.whatsapp.net" 0 (by decide)
     (Tracker.mk 0 "49b@s.whatsapp.net" TrackerStatus.stopped "delete")
     (by decide) rfl⟩

/-- C10: in the Dashboard, `tracker-update`, `profile-pic` and
`contact-name` events whose jid has no contact entry leave the contacts map
unchanged; none of the three ever creates or removes an entry (the key set
is preserved); an entry is created by `contact-added` and removed by
`contact-removed`. -/
theorem dashboard_unknown_jid_ignored :
    (∀ (contacts : List (String × ContactInfo)) (u : TrackerUpdateMsg)
        (now : Nat) (jid : String),
        u.jid = some jid → mapGet contacts jid = none →
        applyTrackerUpdate contacts u now = contacts)
    ∧ (∀ (contacts : List (String × ContactInfo)) (jid : String)
        (url : Option String), mapGet contacts jid = none →
        applyProfilePic contacts jid url = contacts)
    ∧ (∀ (contacts : List (String × ContactInfo)) (jid name : String),
        mapGet contacts jid = none →
        applyContactName contacts jid name = contacts)
    ∧ (∀ (contacts : List (String × ContactInfo)) (u : TrackerUpdateMsg)
        (now : Nat) (k : String),
        mapHas (applyTrackerUpdate contacts u now) k = mapHas contacts k)
    ∧ (∀ (contacts : List (String × ContactInfo)) (jid : String)
        (url : Option String) (k : String),
        mapHas (applyProfilePic contacts jid url) k = mapHas contacts k)
    ∧ (∀ (contacts : List (String × ContactInfo)) (jid name k : String),
        mapHas (applyContactName contacts jid name) k = mapHas contacts k)
    ∧ (∀ (contacts : List (String × ContactInfo)) (jid number : String),
        mapHas (applyContactAdded contacts jid number) jid = true)
    ∧ ∀ (contacts : List (String × ContactInfo)) (jid : String),
        mapHas (applyContactRemoved contacts jid) jid = false := by
  refine ⟨?_, ?_, ?_, ?_, ?_, ?_, ?_, ?_⟩
  · intro contacts u now jid hj hg
    by_cases he : jid = ""
    · simp [applyTrackerUpdate, hj, he]
    · simp [applyTrackerUpdate, hj, he, hg]
  · intro contacts jid url hg
    simp [applyProfilePic, hg]
  · intro contacts jid name hg
    simp [applyContactName, hg]
  · intro contacts u now k
    cases hj : u.jid with
    | none => simp [applyTrackerUpdate, hj]
    | some jid =>
      by_cases he : jid = ""
      · simp [applyTrackerUpdate, hj, he]
      · cases hg : mapGet contacts jid with
        | none => simp [applyTrackerUpdate, hj, he, hg]
        | some c =>
          have hhas : mapHas contacts jid = true := by
            rw [mapHas, hg]
            rfl
          simp only [applyTrackerUpdate, hj, if_neg he, hg]
          exact mapHas_mapSet_of_has contacts jid k _ hhas
  · intro contacts jid url k
    cases hg : mapGet contacts jid with
    | none => simp [applyProfilePic, hg]
    | some c =>
      have hhas : mapHas contacts jid = true := by
        rw [mapHas, hg]
        rfl
      simp only [applyProfilePic, hg]
      exact mapHas_mapSet_of_has contacts jid k _ hhas
  · intro contacts jid name k
    cases hg : mapGet contacts jid with
    | none => simp [applyContactName, hg]
    | some c =>
      have hhas : mapHas contacts jid = true := by
        rw [mapHas, hg]
        rfl
      simp only [applyContactName, hg]
      exact mapHas_mapSet_of_has contacts jid k _ hhas
  · intro contacts jid number
    rw [applyContactAdded, mapHas, mapGet_mapSet_self]
    rfl
  · intro contacts jid
    rw [applyContactRemoved, mapHas, mapGet_mapDelete_self]
    rfl

/-- Witness for C10: events for a jid with no entry are ignored on the empty
contacts map, and removal leaves the jid unbound. -/
theorem dashboard_unknown_jid_ignored_witness :
    mapGet ([] : List (String × ContactInfo)) "49x@s.whatsapp.net" = none
    ∧ applyProfilePic [] "49x@s.whatsapp.net" (some "http://pic") = []
    ∧ applyContactName [] "49x@s.whatsapp.net" "Some Name" = []
    ∧ mapHas (applyContactRemoved [] "49x@s.whatsapp.net")
        "49x@s.whatsapp.net" = false :=
  ⟨rfl,
   dashboard_unknown_jid_ignored.2.1 [] "49x@s.whatsapp.net"
     (some "http://pic") rfl,
   dashboard_unknown_jid_ignored.2.2.1 [] "49x@s.whatsapp.net" "Some Name" rfl,
   dashboard_unknown_jid_ignored.2.2.2.2.2.2.2 [] "49x@s.whatsapp.net"⟩

/-- C2 (amended): the headline state of a Dashboard chart point is
re-derived from device state strings by substring matching: it is the state
of the first device whose state string contains `"Online"` as a substring,
and only when no device state contains `"Online"` does it fall back to the
first device's state; the state strings themselves are unconstrained. -/
theorem chart_state_substring_selection (ds : List DeviceInfo)
    (first : DeviceInfo) :
    (chartState ds first = first.state
      ∧ ∀ d ∈ ds, strIncludes d.state "Online" = false)
    ∨ ∃ d ∈ ds, strIncludes d.state "Online" = true
        ∧ chartState ds first = d.state := by
  cases h : ds.find? (fun d => strIncludes d.state "Online") with
  | none =>
    left
    constructor
    · simp [chartState, h]
    · intro d hd
      have := List.find?_eq_none.mp h d hd
      simpa using this
  | some d =>
    right
    exact ⟨d, List.mem_of_find?_eq_some h,
      by have hp := List.find?_some h; exact hp,
      by simp [chartState, h]⟩

/-- Witness for the amended C2: on an empty device list the fallback fires. -/
theorem chart_state_substring_selection_witness :
    (chartState [] (DeviceInfo.mk "d" "Offline" 1 1) = "Offline"
      ∧ ∀ d ∈ ([] : List DeviceInfo), strIncludes d.state "Online" = false)
    ∨ ∃ d ∈ ([] : List DeviceInfo), strIncludes d.state "Online" = true
        ∧ chartState [] (DeviceInfo.mk "d" "Offline" 1 1) = d.state :=
  chart_state_substring_selection [] (DeviceInfo.mk "d" "Offline" 1 1)

/-- A device whose state string is outside the three-valued enum and does
not contain `"Online"`. -/
def devCexA : DeviceInfo := { jid := "dev0", state := "Checking", rtt := 10, avg := 10 }

/-- A device whose state string is outside the three-valued enum yet
contains `"Online"` as a substring. -/
def devCexB : DeviceInfo := { jid := "dev1", state := "ReOnline", rtt := 20, avg := 20 }

/-- A fresh Dashboard contact entry for the C2 counterexample. -/
def cexContact : ContactInfo :=
  { jid := "49c@s.whatsapp.net", displayNumber := "49c", contactName := "49c",
    data := [], devices := [], deviceCount := 0,
    presence := none, profilePic := none }

/-- A `tracker-update` payload carrying the two counterexample devices. -/
def cexUpdate : TrackerUpdateMsg :=
  { jid := some "49c@s.whatsapp.net", presence := none, deviceCount := none,
    devices := some [devCexA, devCexB], median := some 5, threshold := 7 }

/-- C2 counterexample: the Dashboard (a downstream consumer) re-derives the
chart state by substring matching on state strings — fed devices in states
`"Checking"` and `"ReOnline"`, it stores a chart point whose state is
`"ReOnline"`, selected over the first device precisely because the string
contains `"Online"`, and that carried state value is none of `"Online"`,
`"Offline"`, `"Unknown"`. -/
theorem dashboard_substring_state_cex :
    ((mapGet (applyTrackerUpdate [("49c@s.whatsapp.net", cexContact)]
        cexUpdate 1000) "49c@s.whatsapp.net").map
      (fun c => c.data.map (fun p => p.state))) = some ["ReOnline"]
    ∧ strIncludes "ReOnline" "Online" = true
    ∧ devCexA.state = "Checking"
    ∧ ¬("ReOnline" = "Online" ∨ "ReOnline" = "Offline"
        ∨ "ReOnline" = "Unknown") := by
  decide

end DAT
